import Mathlib

/-!
Verification development for the gamemaker_rust repository.

This file shallowly embeds the scene/entity core of the repository:
the component model (src/components.rs), the scene codec
(src/scene/mod.rs), the play-mode transition (src/systems/game_controls.rs,
src/ui/menus.rs), the gameplay systems (src/systems/gameplay.rs,
src/systems/input.rs), the camera controller (src/systems/camera.rs),
the hierarchy panel actions (src/ui/hierarchy.rs) and, where a claim
touches it, the monolithic prototype in src/main.rs.

Modelling conventions:
* f32 values are embedded as rational numbers; the only floating-point
  operations the verified paths perform are copies, additions,
  multiplications, comparisons and clamps, which are exact over the
  rationals.
* Bevy Transform rotation is a quaternion in the source, but every
  rotation in the repository is produced by Quat::from_rotation_z and
  read back by to_euler(ZYX).0, so rotation is embedded as the single
  z-angle scalar and the two conversions are the identity on it.
* Euclidean distance comparisons (dist < r) are embedded as the exactly
  equivalent squared comparisons (0 < r and dist^2 < r^2), avoiding
  square roots.
* The normalize() call in player_movement divides a (+-1, +-1) diagonal
  by sqrt 2; the constant below is a fixed rational stand-in for 1/sqrt 2.
  No theorem in this file depends on its value: every claim about
  player_movement concerns only its disabled (early-return) path.
* Bevy Commands are deferred in the source and applied at the end of the
  system; each embedded system returns the post-flush state, with spawns
  appended in queue order after the surviving entities.
* RON text is embedded as an inductive that either carries the document
  value it encodes or is malformed; ron serialization of a document is
  the encoding constructor and parsing inverts it.  Scene metadata
  (name, version, timestamps) carries no entity data and is not modelled.
-/

/-- 2D vector of rationals (Bevy Vec2). -/
structure V2 where
  x : ℚ
  y : ℚ
deriving DecidableEq, Repr

/-- 3D vector of rationals (Bevy Vec3). -/
structure V3 where
  x : ℚ
  y : ℚ
  z : ℚ
deriving DecidableEq, Repr

/-- RGBA color with rational channels (Bevy Color::rgba). -/
structure Col where
  r : ℚ
  g : ℚ
  b : ℚ
  a : ℚ
deriving DecidableEq, Repr

/-- f32::max. -/
def maxQ (a b : ℚ) : ℚ := if a ≤ b then b else a

/-- f32::clamp lo hi. -/
def clampQ (x lo hi : ℚ) : ℚ := if x < lo then lo else if hi < x then hi else x

def V2.add (p q : V2) : V2 := ⟨p.x + q.x, p.y + q.y⟩

def V2.sub (p q : V2) : V2 := ⟨p.x - q.x, p.y - q.y⟩

/-- Squared 2D Euclidean distance. -/
def dist2 (p q : V2) : ℚ := (p.x - q.x) ^ 2 + (p.y - q.y) ^ 2

/-- Squared 3D Euclidean distance. -/
def dist3sq (p q : V3) : ℚ :=
  (p.x - q.x) ^ 2 + (p.y - q.y) ^ 2 + (p.z - q.z) ^ 2

/-- The real comparison dist p q < r, expressed exactly through squares:
a Euclidean distance is nonnegative, so dist < r iff r > 0 and dist^2 < r^2. -/
def distLt2 (p q : V2) (r : ℚ) : Bool := 0 < r && dist2 p q < r ^ 2

/-- 3D analogue of distLt2 (Transform::translation.distance in the source). -/
def distLt3 (p q : V3) (r : ℚ) : Bool := 0 < r && dist3sq p q < r ^ 2

/-- Bevy Transform: translation, z-rotation angle and non-uniform scale. -/
structure Tf where
  translation : V3
  rotation : ℚ
  scale : V3
deriving DecidableEq, Repr

def Tf.truncate (t : Tf) : V2 := ⟨t.translation.x, t.translation.y⟩

/-- Transform::with_scale. -/
def Tf.withScale (t : Tf) (s : V3) : Tf := { t with scale := s }

/-- SpriteAsset component (src/components.rs); the Rust arrays
tint_color: [f32;4] and scale: [f32;2] are given named fields. -/
structure SpriteAsset where
  asset_path : Option String
  tintR : ℚ
  tintG : ℚ
  tintB : ℚ
  tintA : ℚ
  scaleX : ℚ
  scaleY : ℚ
deriving DecidableEq, Repr

/-- SpriteAsset::get_color. -/
def SpriteAsset.getColor (s : SpriteAsset) : Col := ⟨s.tintR, s.tintG, s.tintB, s.tintA⟩

/-- SpriteAsset::get_scale. -/
def SpriteAsset.getScale (s : SpriteAsset) : V2 := ⟨s.scaleX, s.scaleY⟩

/-- EntityType enum (src/components.rs). -/
inductive EntityType where
  | player
  | enemy
  | projectile
deriving DecidableEq, Repr

/-- SerializableTransform (src/components.rs). -/
structure SerializableTransform where
  x : ℚ
  y : ℚ
  z : ℚ
  rotation : ℚ
  scale_x : ℚ
  scale_y : ℚ
deriving DecidableEq, Repr

/-- impl From<Transform> for SerializableTransform: stores translation,
the z-Euler angle of the rotation and the x/y scale. -/
def SerializableTransform.fromTf (t : Tf) : SerializableTransform :=
  ⟨t.translation.x, t.translation.y, t.translation.z, t.rotation, t.scale.x, t.scale.y⟩

/-- impl From<SerializableTransform> for Transform: rebuilds the
translation, a pure z rotation, and scale (x, y, 1). -/
def SerializableTransform.toTf (st : SerializableTransform) : Tf :=
  { translation := ⟨st.x, st.y, st.z⟩
    rotation := st.rotation
    scale := ⟨st.scale_x, st.scale_y, 1⟩ }

/-- SerializableEntity (src/components.rs). -/
structure SerializableEntity where
  entity_type : EntityType
  transform : SerializableTransform
  health : Option (ℚ × ℚ)
  collision_radius : Option ℚ
  sprite_asset : Option SpriteAsset
deriving DecidableEq, Repr

/-- Scene document (src/scene/mod.rs); the metadata block carries no
entity data and is omitted. -/
structure SceneDoc where
  entities : List SerializableEntity
deriving DecidableEq, Repr

/-- A RON string: either the faithful encoding of a scene document or
malformed text that ron::de::from_str rejects. -/
inductive RonText where
  | good (s : SceneDoc)
  | malformed
deriving DecidableEq, Repr

/-- ron::ser::to_string_pretty on a scene document. -/
def ronSerialize (s : SceneDoc) : RonText := .good s

/-- ron::de::from_str on a scene string. -/
def ronParse : RonText → Option SceneDoc
  | .good s => some s
  | .malformed => none

/-- One live entity of the modular crate: a record of the optional
components the claims touch.  Every entity spawned by the repository
carries a SpriteBundle, hence transform and sprite color are total. -/
structure Ent where
  transform : Tf
  spriteColor : Col
  player : Bool
  enemy : Bool
  /-- Projectile component payload: its velocity. -/
  projectile : Option V2
  /-- Shooting component payload: its cooldown. -/
  shooting : Option ℚ
  /-- Health component payload: (current, max). -/
  health : Option (ℚ × ℚ)
  /-- Collision component payload: its radius. -/
  collision : Option ℚ
  spriteAsset : Option SpriteAsset
  selected : Bool
  camera : Bool
  gridLine : Bool
  backgroundImage : Bool
  /-- OrthographicProjection scale, present exactly on camera entities. -/
  projection : Option ℚ
deriving DecidableEq, Repr

/-- Entity store: the next fresh entity id and the live entities in
spawn order, keyed by id. -/
structure WorldOf (α : Type) where
  nextEid : Nat
  ents : List (Nat × α)
deriving DecidableEq, Repr

abbrev World := WorldOf Ent

def WorldOf.spawn {α : Type} (w : WorldOf α) (e : α) : WorldOf α :=
  ⟨w.nextEid + 1, w.ents ++ [(w.nextEid, e)]⟩

def WorldOf.despawn {α : Type} (w : WorldOf α) (id : Nat) : WorldOf α :=
  ⟨w.nextEid, w.ents.filter (fun p => p.1 ≠ id)⟩

def WorldOf.isAlive {α : Type} (w : WorldOf α) (id : Nat) : Bool :=
  w.ents.any (fun p => p.1 = id)

def WorldOf.lookup {α : Type} (w : WorldOf α) (id : Nat) : Option α :=
  (w.ents.find? (fun p => p.1 = id)).map Prod.snd

def emptyWorld : World := ⟨0, []⟩

/-- An entity carrying only a SpriteBundle: the base of every spawn. -/
def baseEnt (t : Tf) (c : Col) : Ent :=
  { transform := t, spriteColor := c, player := false, enemy := false
    projectile := none, shooting := none, health := none, collision := none
    spriteAsset := none, selected := false, camera := false, gridLine := false
    backgroundImage := false, projection := none }

/-- Bevy Color::BLUE. -/
def colBlue : Col := ⟨0, 0, 1, 1⟩

/-- Bevy Color::RED. -/
def colRed : Col := ⟨1, 0, 0, 1⟩

/-- Bevy Color::YELLOW. -/
def colYellow : Col := ⟨1, 1, 0, 1⟩

/-- Bevy Color::ORANGE. -/
def colOrange : Col := ⟨1, 13/20, 0, 1⟩

/-- Default color and scale per entity type in spawn_entity_from_data. -/
def defaultColorScale : EntityType → Col × V3
  | .player => (colBlue, ⟨50, 50, 50⟩)
  | .enemy => (colRed, ⟨40, 40, 40⟩)
  | .projectile => (colYellow, ⟨5, 15, 1⟩)

/-- The entity built by spawn_entity_from_data (src/scene/mod.rs 107-219)
for one record: the sprite color and scale come from the sprite asset or
the role defaults, the transform's persisted scale is replaced via
with_scale, and role-specific components are inserted with defaults for
absent fields. -/
def entOfRecord (d : SerializableEntity) : Ent :=
  let t := d.transform.toTf
  let dc := (defaultColorScale d.entity_type).1
  let ds := (defaultColorScale d.entity_type).2
  let spriteColor : Col :=
    match d.sprite_asset with
    | some sa => sa.getColor
    | none => dc
  let spriteScale : V3 :=
    match d.sprite_asset with
    | some sa => ⟨ds.x * sa.getScale.x, ds.y * sa.getScale.y, ds.z⟩
    | none => ds
  match d.entity_type with
  | .player =>
      { baseEnt (t.withScale spriteScale) spriteColor with
        player := true
        shooting := some 0
        spriteAsset := d.sprite_asset
        health := some (d.health.getD (100, 100))
        collision := some (d.collision_radius.getD 25) }
  | .enemy =>
      { baseEnt (t.withScale spriteScale) spriteColor with
        enemy := true
        spriteAsset := d.sprite_asset
        health := some (d.health.getD (50, 50))
        collision := some (d.collision_radius.getD 20) }
  | .projectile =>
      { baseEnt (t.withScale spriteScale) spriteColor with
        projectile := some ⟨0, 400⟩
        spriteAsset := d.sprite_asset
        collision := some (d.collision_radius.getD 5) }

/-- spawn_entity_from_data: spawns the record's entity into the world. -/
def spawn_entity_from_data (w : World) (d : SerializableEntity) : World :=
  w.spawn (entOfRecord d)

/-- Role chosen by the save loops: Player, else Enemy, else Projectile,
else skipped. -/
def roleOf (e : Ent) : Option EntityType :=
  if e.player then some .player
  else if e.enemy then some .enemy
  else if e.projectile.isSome then some .projectile
  else none

/-- Query filter (Without Camera, Without GridLine, Without BackgroundImage). -/
def excludedEnt (e : Ent) : Bool := e.camera || e.gridLine || e.backgroundImage

/-- The record save_scene_to_string writes for one role-bearing entity. -/
def recordOfEnt (e : Ent) (t : EntityType) : SerializableEntity :=
  { entity_type := t
    transform := SerializableTransform.fromTf e.transform
    health := e.health
    collision_radius := e.collision
    sprite_asset := e.spriteAsset }

/-- The collection loop of save_scene_to_string (src/scene/mod.rs 251-286):
entities surviving the query filter and carrying a role are serialized in
iteration order. -/
def sceneOfWorld (w : World) : SceneDoc :=
  ⟨w.ents.filterMap (fun p =>
    if excludedEnt p.2 then none
    else (roleOf p.2).map (recordOfEnt p.2))⟩

/-- save_scene_to_string: serialize the collected scene to RON. -/
def save_scene_to_string (w : World) : RonText :=
  ronSerialize (sceneOfWorld w)

/-- Spawning every record of a document, in order. -/
def applySceneDoc (w : World) (s : SceneDoc) : World :=
  s.entities.foldl spawn_entity_from_data w

/-- load_scene_from_string (src/scene/mod.rs 289-302): parse, then spawn
every record; a parse failure returns before any spawn. -/
def load_scene_from_string (w : World) (txt : RonText) : World × Option SceneDoc :=
  match ronParse txt with
  | none => (w, none)
  | some s => (applySceneDoc w s, some s)

/-- load_scene (src/scene/mod.rs 87-104): read the file, parse, then
spawn.  A read failure or parse failure returns before any spawn. -/
def load_scene (w : World) (fileRead : Option RonText) : World × Option SceneDoc :=
  match fileRead with
  | none => (w, none)
  | some txt => load_scene_from_string w txt

example : (load_scene emptyWorld (some .malformed)).1 = emptyWorld := rfl

/-! ## Play mode (src/ui/menus.rs, src/systems/game_controls.rs) -/

/-- GameState resource (src/resources.rs). -/
structure GameState where
  paused : Bool
  debug_mode : Bool
  playing : Bool
  editor_mode : Bool
deriving DecidableEq, Repr

/-- The snapshot loop of save_scene_state_for_play (src/ui/menus.rs
224-266).  Its query exposes only the Player/Enemy/Health/Collision
components: projectile entities fall through to the skip branch and
sprite assets are recorded as None. -/
def save_scene_state_for_play (w : World) : SceneDoc :=
  ⟨w.ents.filterMap (fun p =>
    if excludedEnt p.2 then none
    else if p.2.player then
      some { entity_type := .player
             transform := SerializableTransform.fromTf p.2.transform
             health := p.2.health
             collision_radius := p.2.collision
             sprite_asset := none }
    else if p.2.enemy then
      some { entity_type := .enemy
             transform := SerializableTransform.fromTf p.2.transform
             health := p.2.health
             collision_radius := p.2.collision
             sprite_asset := none }
    else none)⟩

/-- Query Or(With Player, With Enemy, With Projectile): the entities
handle_play_mode_transition despawns on stop. -/
def roleBearing (e : Ent) : Bool := e.player || e.enemy || e.projectile.isSome

/-- Despawn of every role-bearing entity. -/
def despawnRoleBearing (w : World) : World :=
  ⟨w.nextEid, w.ents.filter (fun p => !roleBearing p.2)⟩

/-- handle_play_mode_transition (src/systems/game_controls.rs 45-70):
when stopped and in editor mode with a retained snapshot, despawn every
role-bearing entity, replay the snapshot, and clear the snapshot;
otherwise do nothing. -/
def handle_play_mode_transition (w : World) (gs : GameState)
    (saved : Option RonText) : World × Option RonText :=
  if !gs.playing && gs.editor_mode then
    match saved with
    | some txt => ((load_scene_from_string (despawnRoleBearing w) txt).1, none)
    | none => (w, saved)
  else (w, saved)

/-! ## Gameplay systems (src/systems/gameplay.rs, src/systems/input.rs) -/

/-- Keyboard state consumed by the gameplay systems. -/
structure Keys where
  keyW : Bool
  keyS : Bool
  keyA : Bool
  keyD : Bool
  up : Bool
  down : Bool
  left : Bool
  right : Bool
  space : Bool
deriving DecidableEq, Repr

/-- ShootingStats resource. -/
structure ShootingStats where
  shots_fired : Nat
  hits : Nat
deriving DecidableEq, Repr

/-- The gate shared by every gated gameplay system:
if !game_state.playing || game_state.paused return early. -/
def gameplayGate (gs : GameState) : Bool := !gs.playing || gs.paused

/-- Fixed rational stand-in for 1 / sqrt 2 used by the diagonal branch of
normalize(); no theorem depends on its value. -/
def invSqrtTwo : ℚ := 70710678 / 100000000

/-- The normalized direction * 200 * dt displacement of player_movement.
Direction components are each -1, 0 or 1; the diagonal case divides by
sqrt 2. -/
def movementDelta (ks : Keys) (dt : ℚ) : V3 :=
  let dy : ℚ := (if ks.keyW || ks.up then 1 else 0) + (if ks.keyS || ks.down then -1 else 0)
  let dx : ℚ := (if ks.keyA || ks.left then -1 else 0) + (if ks.keyD || ks.right then 1 else 0)
  if dx = 0 && dy = 0 then ⟨0, 0, 0⟩
  else
    let f : ℚ := if dx ≠ 0 && dy ≠ 0 then invSqrtTwo else 1
    ⟨dx * f * 200 * dt, dy * f * 200 * dt, 0⟩

/-- player_movement (src/systems/input.rs 10-41): gated; moves every
Player entity by the normalized keyboard direction. -/
def player_movement (w : World) (ks : Keys) (dt : ℚ) (gs : GameState) : World :=
  if gameplayGate gs then w
  else
    ⟨w.nextEid, w.ents.map (fun p =>
      if p.2.player then
        let d := movementDelta ks dt
        (p.1, { p.2 with transform := { p.2.transform with
          translation := ⟨p.2.transform.translation.x + d.x,
                          p.2.transform.translation.y + d.y,
                          p.2.transform.translation.z + d.z⟩ } })
      else p)⟩

/-- The projectile entity player_shooting spawns above a player. -/
def shotProjectile (t : Tf) : Ent :=
  { baseEnt { translation := ⟨t.translation.x, t.translation.y + 30, t.translation.z⟩
              rotation := 0, scale := ⟨5, 15, 1⟩ } colYellow with
    projectile := some ⟨0, 400⟩
    collision := some 5 }

/-- player_shooting (src/systems/gameplay.rs 9-51): gated; for each
Player with a Shooting component, tick the cooldown down and, when space
is held with the cooldown expired, queue a projectile spawn, reset the
cooldown to 0.3 and count the shot.  Queued spawns flush after the loop. -/
def player_shooting (w : World) (ks : Keys) (dt : ℚ) (gs : GameState)
    (stats : ShootingStats) : World × ShootingStats :=
  if gameplayGate gs then (w, stats)
  else
    let step := w.ents.foldl (fun (acc : List (Nat × Ent) × List Ent × Nat)
        (p : Nat × Ent) =>
      match p.2.shooting with
      | some cd =>
          if p.2.player then
            let cd1 := if cd > 0 then cd - dt else cd
            if ks.space && cd1 ≤ 0 then
              (acc.1 ++ [(p.1, { p.2 with shooting := some (3/10) })],
               acc.2.1 ++ [shotProjectile p.2.transform], acc.2.2 + 1)
            else (acc.1 ++ [(p.1, { p.2 with shooting := some cd1 })], acc.2.1, acc.2.2)
          else (acc.1 ++ [p], acc.2.1, acc.2.2)
      | none => (acc.1 ++ [p], acc.2.1, acc.2.2)) ([], [], 0)
    (step.2.1.foldl WorldOf.spawn ⟨w.nextEid, step.1⟩,
     { stats with shots_fired := stats.shots_fired + step.2.2 })

/-- projectile_movement (src/systems/gameplay.rs 54-67): gated; advances
every Projectile by velocity * dt. -/
def projectile_movement (w : World) (dt : ℚ) (gs : GameState) : World :=
  if gameplayGate gs then w
  else
    ⟨w.nextEid, w.ents.map (fun p =>
      match p.2.projectile with
      | some v =>
          (p.1, { p.2 with transform := { p.2.transform with
            translation := ⟨p.2.transform.translation.x + v.x * dt,
                            p.2.transform.translation.y + v.y * dt,
                            p.2.transform.translation.z⟩ } })
      | none => p)⟩

/-- projectile_cleanup (src/systems/gameplay.rs 70-81): despawns every
Projectile whose translation leaves the (-1000, 1000) square.  This
system takes no GameState and runs unconditionally. -/
def projectile_cleanup (w : World) : World :=
  ⟨w.nextEid, w.ents.filter (fun p =>
    !(p.2.projectile.isSome &&
      (p.2.transform.translation.y > 1000 || p.2.transform.translation.y < -1000 ||
       p.2.transform.translation.x > 1000 || p.2.transform.translation.x < -1000)))⟩

/-- update_shooting_cooldowns (src/systems/gameplay.rs 84-98): gated;
decrements every positive Shooting cooldown by dt. -/
def update_shooting_cooldowns (w : World) (dt : ℚ) (gs : GameState) : World :=
  if gameplayGate gs then w
  else
    ⟨w.nextEid, w.ents.map (fun p =>
      match p.2.shooting with
      | some cd => (p.1, { p.2 with shooting := some (if cd > 0 then cd - dt else cd) })
      | none => p)⟩

/-- boundary_collision (src/systems/gameplay.rs 137-152): gated; clamps
the x/y translation of every entity with a Collision component to
[-400, 400]. -/
def boundary_collision (w : World) (gs : GameState) : World :=
  if gameplayGate gs then w
  else
    ⟨w.nextEid, w.ents.map (fun p =>
      if p.2.collision.isSome then
        (p.1, { p.2 with transform := { p.2.transform with
          translation := ⟨clampQ p.2.transform.translation.x (-400) 400,
                          clampQ p.2.transform.translation.y (-400) 400,
                          p.2.transform.translation.z⟩ } })
      else p)⟩

/-- enemy_color_change (src/systems/gameplay.rs 155-174): gated; recolors
every Enemy with a Health component by its health ratio. -/
def enemy_color_change (w : World) (gs : GameState) : World :=
  if gameplayGate gs then w
  else
    ⟨w.nextEid, w.ents.map (fun p =>
      if p.2.enemy then
        match p.2.health with
        | some h =>
            let c := if h.1 / h.2 > 7/10 then colRed
                     else if h.1 / h.2 > 3/10 then colOrange
                     else ⟨1/2, 0, 0, 1⟩
            (p.1, { p.2 with spriteColor := c })
        | none => p
      else p)⟩

example :
    projectile_cleanup ⟨1, [(0, { baseEnt ⟨⟨0, 1500, 0⟩, 0, ⟨1, 1, 1⟩⟩ colYellow with
      projectile := some ⟨0, 400⟩ })]⟩ = ⟨1, []⟩ := by decide

/-- collision_detection (src/systems/gameplay.rs 101-134): gated; for
each projectile (snapshot of the query, despawns being deferred) the
first Enemy with Transform, Collision and Health within the summed radii
takes 25 damage; the projectile despawn and, when health drops to 0 or
below, the enemy despawn are queued and flushed after the loops. -/
def collision_detection (w : World) (gs : GameState) (stats : ShootingStats) :
    World × ShootingStats :=
  if gameplayGate gs then (w, stats)
  else
    let projs : List (Nat × V3 × ℚ) := w.ents.filterMap (fun p =>
      match p.2.projectile, p.2.collision with
      | some _, some r => some (p.1, p.2.transform.translation, r)
      | _, _ => none)
    let step := projs.foldl (fun (acc : List (Nat × Ent) × List Nat × Nat) pr =>
      match acc.1.find? (fun q =>
          q.2.enemy && q.2.collision.isSome && q.2.health.isSome &&
          distLt3 pr.2.1 q.2.transform.translation (pr.2.2 + q.2.collision.getD 0)) with
      | some hit =>
          let hc := (hit.2.health.getD (0, 0)).1 - 25
          let hm := (hit.2.health.getD (0, 0)).2
          (acc.1.map (fun q => if q.1 = hit.1 then (q.1, { q.2 with health := some (hc, hm) }) else q),
           acc.2.1 ++ [pr.1] ++ (if hc ≤ 0 then [hit.1] else []),
           acc.2.2 + 1)
      | none => acc) (w.ents, [], 0)
    (⟨w.nextEid, step.1.filter (fun p => !step.2.1.contains p.1)⟩,
     { stats with hits := stats.hits + step.2.2 })

/-! ## Selection and drag (src/systems/input.rs 44-115, src/resources.rs) -/

/-- SelectedEntity resource. -/
structure SelectedEntity where
  entity : Option Nat
deriving DecidableEq, Repr

/-- DragState resource. -/
structure DragState where
  dragging : Bool
  drag_offset : V2
deriving DecidableEq, Repr

/-- Sets selected := false on the given entity (deferred
commands.remove::<Selected>, a no-op when the target is absent). -/
def removeSelMarker (w : World) (oid : Option Nat) : World :=
  match oid with
  | some i => ⟨w.nextEid, w.ents.map (fun p =>
      if p.1 = i then (p.1, { p.2 with selected := false }) else p)⟩
  | none => w

/-- Sets selected := true on the given entity (deferred
commands.insert(Selected)). -/
def insertSelMarker (w : World) (i : Nat) : World :=
  ⟨w.nextEid, w.ents.map (fun p =>
    if p.1 = i then (p.1, { p.2 with selected := true }) else p)⟩

/-- The closest-entity search of mouse_interaction: iterate every entity
surviving the (Without Camera, Without GridLine, Without BackgroundImage)
filter; a candidate must satisfy distance < max(scale.x, scale.y) * 0.5
and beat the best distance so far (initially infinity).  Distances are
compared through their squares, which is exact. -/
def closestHitEnt (ents : List (Nat × Ent)) (mouse : V2) : Option (Nat × Ent) :=
  (ents.foldl (fun (best : Option (Nat × Ent × ℚ)) p =>
    if excludedEnt p.2 then best
    else
      let d2 : ℚ := dist2 p.2.transform.truncate mouse
      let sz : ℚ := maxQ p.2.transform.scale.x p.2.transform.scale.y * (1/2)
      let better : Bool := match best with
        | none => true
        | some b => decide (d2 < b.2.2)
      if decide (0 < sz) && decide (d2 < sz ^ 2) && better then some (p.1, p.2, d2)
      else best) none).map (fun b => (b.1, b.2.1))

/-- mouse_interaction (src/systems/input.rs 44-97): on left press, pick
the closest entity within its half-max-scale radius; if one is hit,
unmark the previous selection, mark and select the hit entity and start
a drag with offset = entity position - mouse position; if none is hit,
unmark and clear the selection and end any drag.  A left release ends
the drag. -/
def mouse_interaction (w : World) (sel : SelectedEntity) (drag : DragState)
    (pressed released : Bool) (mouse : V2) : World × SelectedEntity × DragState :=
  let st :=
    if pressed then
      match closestHitEnt w.ents mouse with
      | some hit =>
          (insertSelMarker (removeSelMarker w sel.entity) hit.1,
           (⟨some hit.1⟩ : SelectedEntity),
           ({ dragging := true, drag_offset := hit.2.transform.truncate.sub mouse } : DragState))
      | none =>
          (removeSelMarker w sel.entity, (⟨none⟩ : SelectedEntity),
           { drag with dragging := false })
    else (w, sel, drag)
  if released then (st.1, st.2.1, { st.2.2 with dragging := false }) else st

/-- entity_dragging (src/systems/input.rs 100-115): while dragging, set
the selected entity's x/y translation to mouse position + drag offset;
its query has no filters, so any live entity id is addressed directly. -/
def entity_dragging (w : World) (drag : DragState) (sel : SelectedEntity)
    (mouse : V2) : World :=
  if drag.dragging then
    match sel.entity with
    | some eid =>
        ⟨w.nextEid, w.ents.map (fun p =>
          if p.1 = eid then
            (p.1, { p.2 with transform := { p.2.transform with translation :=
              ⟨mouse.x + drag.drag_offset.x, mouse.y + drag.drag_offset.y,
               p.2.transform.translation.z⟩ } })
          else p)⟩
    | none => w
  else w

/-! ## Camera controller (src/systems/camera.rs, src/resources.rs) -/

/-- CameraController resource. -/
structure CameraController where
  target_position : V2
  following_entity : Option Nat
  zoom : ℚ
  target_zoom : ℚ
  instant_movement : Bool
deriving DecidableEq, Repr

/-- The follow lookup of camera_movement: its entity query is
Query of &Transform with (Without Camera, With Player). -/
def lookupPlayerTf (w : World) (id : Nat) : Option Tf :=
  (w.ents.find? (fun p => p.1 = id && p.2.player && !p.2.camera)).map
    (fun p => p.2.transform)

/-- The per-camera body of camera_movement: resolve the follow target
(clearing it when the lookup fails), move instantly or by exponential
interpolation (lerp factor 5 * dt), then interpolate zoom (factor 8 * dt)
and write it to the projection. -/
def cameraStep (w : World) (dt : ℚ) (cc : CameraController) (camTf : Tf) :
    CameraController × Tf × ℚ :=
  let cc1 :=
    match cc.following_entity with
    | some fid =>
        match lookupPlayerTf w fid with
        | some tf => { cc with target_position := tf.truncate }
        | none => { cc with following_entity := none }
    | none => cc
  let moved :=
    if cc1.instant_movement then
      ({ camTf with translation :=
          ⟨cc1.target_position.x, cc1.target_position.y, camTf.translation.z⟩ },
       { cc1 with instant_movement := false })
    else
      let f := 5 * dt
      let cur := camTf.truncate
      ({ camTf with translation :=
          ⟨cur.x + (cc1.target_position.x - cur.x) * f,
           cur.y + (cc1.target_position.y - cur.y) * f,
           camTf.translation.z⟩ }, cc1)
  let cc2 := moved.2
  let z1 := cc2.zoom + (cc2.target_zoom - cc2.zoom) * (8 * dt)
  ({ cc2 with zoom := z1 }, moved.1, z1)

/-- camera_movement (src/systems/camera.rs 10-49): for every entity with
Camera and OrthographicProjection, run the camera step against the
controller, updating the camera transform and projection scale. -/
def camera_movement (w : World) (cc : CameraController) (dt : ℚ) :
    World × CameraController :=
  let res := w.ents.foldl (fun (acc : List (Nat × Ent) × CameraController) p =>
    if p.2.camera && p.2.projection.isSome then
      let s := cameraStep w dt acc.2 p.2.transform
      (acc.1 ++ [(p.1, { p.2 with transform := s.2.1, projection := some s.2.2 })], s.1)
    else (acc.1 ++ [p], acc.2)) ([], cc)
  (⟨w.nextEid, res.1⟩, res.2)

/-! ## Hierarchy panel actions (src/ui/hierarchy.rs 116-214) -/

/-- The hierarchy row click (src/ui/hierarchy.rs 152-154): it assigns the
SelectedEntity resource and nothing else; the Selected marker component
is not moved. -/
def hierarchy_select (_sel : SelectedEntity) (id : Nat) : SelectedEntity :=
  ⟨some id⟩

/-- The hierarchy delete button (src/ui/hierarchy.rs 157-162): clear the
selection resource when it points at the deleted entity, then despawn.
The function receives no CameraController: the follow target cannot be
touched here. -/
def hierarchy_delete (w : World) (sel : SelectedEntity) (id : Nat) :
    World × SelectedEntity :=
  (w.despawn id, if sel.entity = some id then ⟨none⟩ else sel)

/-- The complete editor-state effect of clicking the hierarchy delete
button: the world and selection change per hierarchy_delete and the
camera controller is untouched, since render_hierarchy_content has no
access to it. -/
def editorDeleteStep (w : World) (sel : SelectedEntity) (cc : CameraController)
    (id : Nat) : World × SelectedEntity × CameraController :=
  ((hierarchy_delete w sel id).1, (hierarchy_delete w sel id).2, cc)

/-! ## The monolithic prototype (src/main.rs), as far as the claims
touch it: its own component set, scene format and load path. -/

/-- EntityType of the prototype (src/main.rs). -/
inductive MEntityType where
  | player
  | enemy
  | customSprite
deriving DecidableEq, Repr

/-- A live entity of the prototype. -/
structure MEnt where
  transform : Tf
  color : Col
  custom_size : Option (ℚ × ℚ)
  /-- Texture handle, modelled by its asset path. -/
  texture : Option String
  /-- Selectable component payload: the display name. -/
  selectable : Option String
  /-- SceneEntity component payload: the scene-local id. -/
  sceneId : Option Nat
  player : Bool
  enemy : Bool
  customSprite : Option String
  /-- Projectile payload: velocity, lifetime, max_lifetime. -/
  projectile : Option (V2 × ℚ × ℚ)
  /-- Shooter payload: shoot_cooldown, max_cooldown, projectile_speed. -/
  shooter : Option (ℚ × ℚ × ℚ)
  collider : Option (ℚ × ℚ)
  /-- Health payload with integer domain (current, max). -/
  healthI : Option (Int × Int)
  selected : Bool
  camera : Bool
deriving DecidableEq, Repr

abbrev MWorld := WorldOf MEnt

/-- SerializableEntity of the prototype: id, name, type, transform
(x, y, z only), color, size, texture path. -/
structure MSerializableEntity where
  id : Nat
  name : String
  entity_type : MEntityType
  x : ℚ
  y : ℚ
  z : ℚ
  color : Col
  size : ℚ × ℚ
  texture_path : Option String
deriving DecidableEq, Repr

/-- Scene of the prototype: next_id plus records. -/
structure MScene where
  next_id : Nat
  entities : List MSerializableEntity
deriving DecidableEq, Repr

/-- RON text for the prototype's scene format. -/
inductive MRon where
  | good (s : MScene)
  | malformed
deriving DecidableEq, Repr

/-- One record spawn of the prototype's load_scene (src/main.rs 573-630). -/
def mainSpawnFromData (w : MWorld) (d : MSerializableEntity) : MWorld :=
  let base : MEnt :=
    { transform := ⟨⟨d.x, d.y, d.z⟩, 0, ⟨1, 1, 1⟩⟩
      color := d.color
      custom_size := some d.size
      texture := d.texture_path
      selectable := some d.name
      sceneId := some d.id
      player := false, enemy := false, customSprite := none
      projectile := none, shooter := none, collider := none, healthI := none
      selected := false, camera := false }
  match d.entity_type with
  | .player =>
      w.spawn { base with player := true, shooter := some (0, 3/10, 300)
                          collider := some d.size, healthI := some (100, 100) }
  | .enemy =>
      w.spawn { base with enemy := true, collider := some d.size
                          healthI := some (50, 50) }
  | .customSprite =>
      w.spawn { base with collider := some d.size, healthI := some (25, 25)
                          customSprite := d.texture_path }

/-- load_scene of the prototype (src/main.rs 550-635): it first despawns
every SceneEntity (keeping cameras) and clears the selection, and only
then reads and parses the file; on success it overwrites the manager's
next_id and spawns the records.  The Bool reports Ok/Err. -/
def main_load_scene (w : MWorld) (_sel : Option Nat) (mgrNextId : Nat)
    (fileRead : Option MRon) : MWorld × Option Nat × Nat × Bool :=
  let w1 : MWorld := ⟨w.nextEid, w.ents.filter (fun p => !(p.2.sceneId.isSome && !p.2.camera))⟩
  match fileRead with
  | none => (w1, none, mgrNextId, false)
  | some .malformed => (w1, none, mgrNextId, false)
  | some (.good scene) =>
      (scene.entities.foldl mainSpawnFromData w1, none, scene.next_id, true)

/-- delete_entity of the prototype (src/main.rs 494-506): clear the
selection when it points at the entity, then despawn.  The prototype's
CameraController (with its follow_entity field) is not an argument. -/
def delete_entity (w : MWorld) (sel : Option Nat) (id : Nat) :
    MWorld × Option Nat :=
  (w.despawn id, if sel = some id then none else sel)

/-- The Stop button of the menu toolbar (src/ui/menus.rs 173-179): it
only flips the mode flags; the restore itself happens in
handle_play_mode_transition on a later frame. -/
def stop_button (gs : GameState) : GameState :=
  { gs with playing := false, editor_mode := true, paused := false }

/-! ## Shared lemmas on the entity store -/

/-- The id/entity pairs produced by spawning a record list starting at a
given fresh id. -/
def spawnList (n : Nat) : List SerializableEntity → List (Nat × Ent)
  | [] => []
  | d :: ds => (n, entOfRecord d) :: spawnList (n + 1) ds

theorem applySceneDoc_eq (ds : List SerializableEntity) :
    ∀ w : World, ds.foldl spawn_entity_from_data w =
      ⟨w.nextEid + ds.length, w.ents ++ spawnList w.nextEid ds⟩ := by
  induction ds with
  | nil => intro w; simp [spawnList]
  | cons d ds ih =>
      intro w
      have h1 : (d :: ds).foldl spawn_entity_from_data w =
          ds.foldl spawn_entity_from_data (spawn_entity_from_data w d) := rfl
      rw [h1, ih]
      simp [spawn_entity_from_data, WorldOf.spawn, spawnList]
      omega

theorem spawnList_map_snd (ds : List SerializableEntity) :
    ∀ n : Nat, (spawnList n ds).map Prod.snd = ds.map entOfRecord := by
  induction ds with
  | nil => intro n; simp [spawnList]
  | cons d ds ih => intro n; simp [spawnList, ih]

theorem spawnList_roleBearing (ds : List SerializableEntity) :
    ∀ n : Nat, ∀ p ∈ spawnList n ds, roleBearing p.2 = true := by
  induction ds with
  | nil => intro n p hp; simp [spawnList] at hp
  | cons d ds ih =>
      intro n p hp
      simp only [spawnList, List.mem_cons] at hp
      rcases hp with h | h
      · subst h
        cases hdt : d.entity_type <;>
          simp [entOfRecord, roleBearing, hdt, baseEnt]
      · exact ih (n + 1) p h

theorem lookupPlayerTf_of_dead (w : World) (id : Nat)
    (h : w.isAlive id = false) : lookupPlayerTf w id = none := by
  simp only [WorldOf.isAlive, List.any_eq_false] at h
  have hnone : (w.ents.find? fun p => p.1 = id && p.2.player && !p.2.camera) = none := by
    apply List.find?_eq_none.2
    intro p hp
    have h2 := h p hp
    simp only [decide_eq_false_iff_not] at h2
    simp [h2]
  simp [lookupPlayerTf, hnone]

/-! ## C9: Stop with no retained snapshot is a no-op -/

/-- C9: pressing Stop with no play-mode snapshot present leaves the
entity set untouched and raises no error: for every world and every game
state (in particular the state the Stop button produces),
handle_play_mode_transition with an empty snapshot returns the world
unchanged. -/
theorem stop_without_snapshot_noop (w : World) (gs : GameState) :
    handle_play_mode_transition w gs none = (w, none) ∧
    handle_play_mode_transition w (stop_button gs) none = (w, none) := by
  constructor <;> (simp only [handle_play_mode_transition]; split <;> rfl)

/-! ## C5: parse failure and the scene in memory -/

/-- C5 counterexample world: one prototype scene entity. -/
def mCexEnt : MEnt :=
  { transform := ⟨⟨10, 20, 0⟩, 0, ⟨1, 1, 1⟩⟩, color := colRed
    custom_size := some (30, 30), texture := none, selectable := some "Enemy 1"
    sceneId := some 0, player := false, enemy := true, customSprite := none
    projectile := none, shooter := none, collider := some (30, 30)
    healthI := some (50, 50), selected := true, camera := false }

def mCexWorld : MWorld := ⟨1, [(0, mCexEnt)]⟩

/-- C5 counterexample: the prototype's load_scene (src/main.rs 550-567)
despawns the current scene entities and clears the selection before
parsing, so a malformed file aborts the load with an error yet leaves
the scene emptied — the in-memory scene is not left untouched. -/
theorem load_parse_failure_counterexample :
    (main_load_scene mCexWorld (some 0) 5 (some .malformed)).2.2.2 = false ∧
    (main_load_scene mCexWorld (some 0) 5 (some .malformed)).1.ents = [] ∧
    (main_load_scene mCexWorld (some 0) 5 (some .malformed)).2.1 = none ∧
    mCexWorld.ents ≠ [] := by
  refine ⟨rfl, rfl, rfl, ?_⟩
  decide

/-- C5 amended: in the modular scene codec (src/scene/mod.rs), a read
failure or parse failure aborts the load before any entity is spawned or
despawned and before any state is touched — parse-then-apply holds
there; the prototype load path of src/main.rs instead clears the scene
and the selection first, so there a parse failure leaves an emptied
scene. -/
theorem load_parse_failure_atomic :
    (∀ w : World, load_scene w none = (w, none)) ∧
    (∀ w : World, load_scene w (some .malformed) = (w, none)) ∧
    (∀ w : World, load_scene_from_string w .malformed = (w, none)) ∧
    (∀ (w : MWorld) (sel : Option Nat) (n : Nat),
      (main_load_scene w sel n (some .malformed)).1.ents =
        w.ents.filter (fun p => !(p.2.sceneId.isSome && !p.2.camera))) :=
  ⟨fun _ => rfl, fun _ => rfl, fun _ => rfl, fun _ _ _ => rfl⟩

/-! ## C3: the simulation gate over the gameplay systems -/

/-- C3 counterexample entity: a projectile far off-screen. -/
def farProjectile : Ent :=
  { baseEnt ⟨⟨0, 1500, 0⟩, 0, ⟨5, 15, 1⟩⟩ colYellow with
    projectile := some ⟨0, 400⟩, collision := some 5 }

def cleanupCexWorld : World := ⟨1, [(0, farProjectile)]⟩

/-- The game state with the simulation flag off (not playing). -/
def gsOff : GameState :=
  { paused := false, debug_mode := false, playing := false, editor_mode := true }

/-- C3 counterexample: projectile_cleanup takes no GameState and runs
unconditionally, so with the simulation flag off it still despawns an
off-screen projectile — it is not a no-op while the flag is false. -/
theorem projectile_cleanup_not_gated :
    gameplayGate gsOff = true ∧
    projectile_cleanup cleanupCexWorld ≠ cleanupCexWorld ∧
    (projectile_cleanup cleanupCexWorld).ents = [] := by
  refine ⟨rfl, ?_, rfl⟩
  decide

/-- C3 amended: whenever the simulation gate is closed (not playing, or
paused), the gated gameplay systems — player movement, shooting,
projectile movement, cooldown update, collision detection, boundary
clamp and color-by-health — change no entity, component or resource
state; projectile cleanup is the exception: it is not gated at all. -/
theorem gameplay_systems_gated (gs : GameState) (w : World) (ks : Keys)
    (dt : ℚ) (stats : ShootingStats) (h : gameplayGate gs = true) :
    player_movement w ks dt gs = w ∧
    player_shooting w ks dt gs stats = (w, stats) ∧
    projectile_movement w dt gs = w ∧
    update_shooting_cooldowns w dt gs = w ∧
    collision_detection w gs stats = (w, stats) ∧
    boundary_collision w gs = w ∧
    enemy_color_change w gs = w := by
  refine ⟨?_, ?_, ?_, ?_, ?_, ?_, ?_⟩ <;>
    simp [player_movement, player_shooting, projectile_movement,
      update_shooting_cooldowns, collision_detection, boundary_collision,
      enemy_color_change, h]

/-! ## C1: the save/load round trip -/

/-- The live entities a save includes: those surviving the query filter
and carrying a role. -/
def roleEnts (w : World) : List Ent :=
  w.ents.filterMap (fun p =>
    if excludedEnt p.2 then none
    else if (roleOf p.2).isSome then some p.2 else none)

/-- The scale spawn_entity_from_data actually installs: the role-default
scale, multiplied componentwise (x/y) by the sprite asset's scale when a
sprite asset is present. -/
def roleScale (t : EntityType) (sa : Option SpriteAsset) : V3 :=
  let ds := (defaultColorScale t).2
  match sa with
  | none => ds
  | some a => ⟨ds.x * a.scaleX, ds.y * a.scaleY, ds.z⟩

/-- How a round-tripped entity relates to its source: position, rotation
and presentation binding are reproduced exactly and the role is kept;
the health pair and collision radius are reproduced exactly when they
were persisted with role defaults only for absent fields — except that a
projectile's persisted health is dropped; the scale however is not
restored: it is recomputed from the role default and the sprite asset. -/
def persistedMatch (src out : Ent) : Prop :=
  out.transform.translation = src.transform.translation ∧
  out.transform.rotation = src.transform.rotation ∧
  out.spriteAsset = src.spriteAsset ∧
  roleOf out = roleOf src ∧
  out.transform.scale = roleScale ((roleOf src).getD .player) src.spriteAsset ∧
  (match roleOf src with
   | some .player =>
       out.health = some (src.health.getD (100, 100)) ∧
       out.collision = some (src.collision.getD 25)
   | some .enemy =>
       out.health = some (src.health.getD (50, 50)) ∧
       out.collision = some (src.collision.getD 20)
   | some .projectile =>
       out.health = none ∧
       out.projectile = some ⟨0, 400⟩ ∧
       out.collision = some (src.collision.getD 5)
   | none => False)

theorem persistedMatch_entOfRecord (e : Ent) (t : EntityType)
    (h : roleOf e = some t) :
    persistedMatch e (entOfRecord (recordOfEnt e t)) := by
  cases t <;>
    · unfold persistedMatch
      rw [h]
      cases hsa : e.spriteAsset <;>
        simp [entOfRecord, recordOfEnt, roleOf, roleScale,
          SerializableTransform.toTf, SerializableTransform.fromTf,
          Tf.withScale, baseEnt, hsa, defaultColorScale, SpriteAsset.getScale]

theorem roundtrip_pointwise (l : List (Nat × Ent)) :
    List.Forall₂ persistedMatch
      (l.filterMap (fun p =>
        if excludedEnt p.2 then none
        else if (roleOf p.2).isSome then some p.2 else none))
      ((l.filterMap (fun p =>
        if excludedEnt p.2 then none
        else (roleOf p.2).map (recordOfEnt p.2))).map entOfRecord) := by
  induction l with
  | nil => simp
  | cons p l ih =>
      by_cases hex : excludedEnt p.2 = true
      · simpa [List.filterMap_cons, hex] using ih
      · have hex0 : excludedEnt p.2 = false := by
          cases h : excludedEnt p.2
          · rfl
          · exact absurd h hex
        cases hrole : roleOf p.2 with
        | none => simpa [List.filterMap_cons, hex0, hrole] using ih
        | some t =>
            simp only [List.filterMap_cons, hex0, Bool.false_eq_true, if_false,
              hrole, Option.isSome_some, if_true, Option.map_some, List.map_cons]
            exact List.Forall₂.cons (persistedMatch_entOfRecord p.2 t hrole) ih

/-- C1 amended: re-spawning the document produced by
save_scene_to_string reproduces, entity by entity, the persisted
position, rotation, health pair, collision shape and presentation
binding (role defaults only for fields that were never persisted, and a
projectile's persisted health dropped since its spawn branch never
inserts Health) — but the scale is not restored: it is recomputed from
the role default and the sprite-asset multiplier. -/
theorem scene_roundtrip_amended (w : World) :
    List.Forall₂ persistedMatch (roleEnts w)
      ((load_scene_from_string emptyWorld (save_scene_to_string w)).1.ents.map
        Prod.snd) := by
  have h1 : (load_scene_from_string emptyWorld (save_scene_to_string w)).1 =
      applySceneDoc emptyWorld (sceneOfWorld w) := rfl
  rw [h1]
  unfold applySceneDoc
  rw [applySceneDoc_eq]
  simp only [emptyWorld, List.nil_append]
  rw [spawnList_map_snd]
  exact roundtrip_pointwise w.ents

/-- C1 counterexample entity: a player whose authored scale (37, 37, 1)
differs from the role default. -/
def rtCexEnt : Ent :=
  { baseEnt ⟨⟨1, 2, 3⟩, 0, ⟨37, 37, 1⟩⟩ colBlue with
    player := true, shooting := some 0, health := some (100, 100)
    collision := some 25 }

def rtCexWorld : World := ⟨1, [(0, rtCexEnt)]⟩

/-- C1 counterexample: the round trip does not reproduce the persisted
scale — a player saved with scale (37, 37, 1) respawns with the role
default scale (50, 50, 50), overwriting the persisted value. -/
theorem scene_roundtrip_counterexample :
    rtCexWorld.ents.map (fun p => p.2.transform.scale) = [⟨37, 37, 1⟩] ∧
    (load_scene_from_string emptyWorld (save_scene_to_string rtCexWorld)).1.ents.map
      (fun p => p.2.transform.scale) = [⟨50, 50, 50⟩] := by
  constructor
  · rfl
  · rfl

/-! ## C2: the play/stop snapshot transaction -/

/-- The entities the play snapshot captures: those surviving the query
filter that are Player or Enemy.  Projectiles fall through the skip
branch of save_scene_state_for_play. -/
def peEnts (w : World) : List Ent :=
  w.ents.filterMap (fun p =>
    if excludedEnt p.2 then none
    else if p.2.player || p.2.enemy then some p.2 else none)

/-- How a restored entity relates to its pre-play source: position,
rotation and role are reproduced; health and collision radius are
reproduced when present pre-play, with role defaults otherwise; the
sprite asset is dropped (the snapshot stores None) and the scale is the
role default. -/
def peRestoreMatch (src out : Ent) : Prop :=
  out.transform.translation = src.transform.translation ∧
  out.transform.rotation = src.transform.rotation ∧
  out.spriteAsset = none ∧
  (src.player = true →
    out.player = true ∧ out.enemy = false ∧
    out.health = some (src.health.getD (100, 100)) ∧
    out.collision = some (src.collision.getD 25) ∧
    out.transform.scale = ⟨50, 50, 50⟩) ∧
  (src.player = false →
    out.player = false ∧ out.enemy = true ∧
    out.health = some (src.health.getD (50, 50)) ∧
    out.collision = some (src.collision.getD 20) ∧
    out.transform.scale = ⟨40, 40, 40⟩)

theorem play_pointwise (l : List (Nat × Ent)) :
    List.Forall₂ peRestoreMatch
      (l.filterMap (fun p =>
        if excludedEnt p.2 then none
        else if p.2.player || p.2.enemy then some p.2 else none))
      ((l.filterMap (fun p =>
        if excludedEnt p.2 then none
        else if p.2.player then
          some { entity_type := .player
                 transform := SerializableTransform.fromTf p.2.transform
                 health := p.2.health
                 collision_radius := p.2.collision
                 sprite_asset := none }
        else if p.2.enemy then
          some { entity_type := .enemy
                 transform := SerializableTransform.fromTf p.2.transform
                 health := p.2.health
                 collision_radius := p.2.collision
                 sprite_asset := none }
        else none)).map entOfRecord) := by
  induction l with
  | nil => simp
  | cons p l ih =>
      by_cases hex : excludedEnt p.2 = true
      · simpa [List.filterMap_cons, hex] using ih
      · have hex0 : excludedEnt p.2 = false := by
          cases h : excludedEnt p.2
          · rfl
          · exact absurd h hex
        by_cases hpl : p.2.player = true
        · simp only [List.filterMap_cons, hex0, Bool.false_eq_true, if_false,
            hpl, Bool.true_or, if_true, List.map_cons]
          refine List.Forall₂.cons ?_ ih
          refine ⟨rfl, rfl, rfl, fun _ => ⟨rfl, rfl, rfl, rfl, rfl⟩, ?_⟩
          intro habs
          exact absurd hpl (by simp [habs])
        · have hpl0 : p.2.player = false := by
            cases h : p.2.player
            · rfl
            · exact absurd h hpl
          by_cases hen : p.2.enemy = true
          · simp only [List.filterMap_cons, hex0, Bool.false_eq_true, if_false,
              hpl0, Bool.false_or, hen, if_true, List.map_cons]
            refine List.Forall₂.cons ?_ ih
            refine ⟨rfl, rfl, rfl, ?_, fun _ => ⟨rfl, rfl, rfl, rfl, rfl⟩⟩
            intro habs
            exact absurd habs (by simp [hpl0])
          · have hen0 : p.2.enemy = false := by
              cases h : p.2.enemy
              · rfl
              · exact absurd h hen
            simpa [List.filterMap_cons, hex0, hpl0, hen0] using ih

/-- The Stop-state flags: not playing, editor mode. -/
def gsStop : GameState :=
  { paused := false, debug_mode := false, playing := false, editor_mode := true }

/-- C2 amended: whatever world wPlay the simulation produced while
playing, stopping despawns every role-bearing entity of it and replays
the retained snapshot of the pre-play world w, then clears the
snapshot.  The replay restores the pre-play Player and Enemy entities
with their positions, rotations, health pairs and collision radii (role
defaults only for absent fields) — but pre-play projectiles and sprite
assets are absent from the snapshot and vanish, scale reverts to the
role default, and entity ids are freshly allocated. -/
theorem play_stop_restores (w wPlay : World) (gs : GameState)
    (h1 : gs.playing = false) (h2 : gs.editor_mode = true) :
    (handle_play_mode_transition wPlay gs
        (some (ronSerialize (save_scene_state_for_play w)))).2 = none ∧
    (handle_play_mode_transition wPlay gs
        (some (ronSerialize (save_scene_state_for_play w)))).1.ents =
      wPlay.ents.filter (fun p => !roleBearing p.2) ++
        spawnList wPlay.nextEid (save_scene_state_for_play w).entities ∧
    List.Forall₂ peRestoreMatch (peEnts w)
      ((spawnList wPlay.nextEid (save_scene_state_for_play w).entities).map
        Prod.snd) := by
  have hcond : (!gs.playing && gs.editor_mode) = true := by rw [h1, h2]; rfl
  refine ⟨?_, ?_, ?_⟩
  · simp only [handle_play_mode_transition, hcond, if_true]
  · simp only [handle_play_mode_transition, hcond, if_true]
    have h3 : (load_scene_from_string (despawnRoleBearing wPlay)
        (ronSerialize (save_scene_state_for_play w))).1 =
        applySceneDoc (despawnRoleBearing wPlay) (save_scene_state_for_play w) := rfl
    rw [h3]
    unfold applySceneDoc
    rw [applySceneDoc_eq]
    rfl
  · rw [spawnList_map_snd]
    exact play_pointwise w.ents

/-- C2 witness: the restore relation at a concrete pre-play world (one
authored player) and a concrete play-time world. -/
theorem play_stop_restores_witness :
    (handle_play_mode_transition emptyWorld gsStop
        (some (ronSerialize (save_scene_state_for_play rtCexWorld)))).2 = none ∧
    (handle_play_mode_transition emptyWorld gsStop
        (some (ronSerialize (save_scene_state_for_play rtCexWorld)))).1.ents =
      emptyWorld.ents.filter (fun p => !roleBearing p.2) ++
        spawnList emptyWorld.nextEid (save_scene_state_for_play rtCexWorld).entities ∧
    List.Forall₂ peRestoreMatch (peEnts rtCexWorld)
      ((spawnList emptyWorld.nextEid
          (save_scene_state_for_play rtCexWorld).entities).map Prod.snd) :=
  play_stop_restores rtCexWorld emptyWorld gsStop rfl rfl

/-- C2 counterexample world: a single authored projectile. -/
def projCexWorld : World :=
  ⟨1, [(0, { baseEnt ⟨⟨0, 0, 0⟩, 0, ⟨5, 15, 1⟩⟩ colYellow with
    projectile := some ⟨0, 400⟩, collision := some 5 })]⟩

/-- C2 counterexample: a pre-play projectile is not captured by
save_scene_state_for_play, so Play followed immediately by Stop (with no
gameplay mutation at all) loses it — the pre-play entity set is not
restored exactly. -/
theorem play_stop_counterexample :
    (handle_play_mode_transition projCexWorld gsStop
        (some (ronSerialize (save_scene_state_for_play projCexWorld)))).1.ents = [] ∧
    projCexWorld.ents.length = 1 := ⟨rfl, rfl⟩

/-! ## C8 and C4: the camera controller -/

/-- The camera-controller component of camera_movement's fold, taken on
its own: the entity rebuilds do not feed back into it. -/
def ccFold (w : World) (dt : ℚ) (cc : CameraController) :
    List (Nat × Ent) → CameraController
  | [] => cc
  | p :: l =>
      ccFold w dt
        (if p.2.camera && p.2.projection.isSome then
          (cameraStep w dt cc p.2.transform).1
        else cc) l

theorem camera_fold_snd (w : World) (dt : ℚ) (l : List (Nat × Ent)) :
    ∀ (acc : List (Nat × Ent)) (cc : CameraController),
      (l.foldl (fun (acc : List (Nat × Ent) × CameraController) p =>
        if p.2.camera && p.2.projection.isSome then
          let s := cameraStep w dt acc.2 p.2.transform
          (acc.1 ++ [(p.1, { p.2 with transform := s.2.1, projection := some s.2.2 })],
           s.1)
        else (acc.1 ++ [p], acc.2)) (acc, cc)).2 = ccFold w dt cc l := by
  induction l with
  | nil => intro acc cc; rfl
  | cons p l ih =>
      intro acc cc
      by_cases hq : (p.2.camera && p.2.projection.isSome) = true
      · simp only [List.foldl_cons, hq, if_true, ccFold]
        exact ih _ _
      · simp only [List.foldl_cons, hq, if_false, ccFold]
        exact ih _ _

theorem camera_movement_cc (w : World) (cc : CameraController) (dt : ℚ) :
    (camera_movement w cc dt).2 = ccFold w dt cc w.ents := by
  unfold camera_movement
  exact camera_fold_snd w dt w.ents [] cc

theorem ccFold_no_camera (w : World) (dt : ℚ) :
    ∀ (l : List (Nat × Ent)) (cc : CameraController),
      (∀ p ∈ l, (p.2.camera && p.2.projection.isSome) = false) →
      ccFold w dt cc l = cc := by
  intro l
  induction l with
  | nil => intro cc _; rfl
  | cons p l ih =>
      intro cc h
      have hp := h p (List.mem_cons_self p l)
      simp only [ccFold, hp, if_false]
      exact ih cc (fun q hq => h q (List.mem_cons_of_mem p hq))

theorem ccFold_single_camera (w : World) (dt : ℚ) :
    ∀ (l : List (Nat × Ent)) (cc : CameraController),
      l.countP (fun p => p.2.camera && p.2.projection.isSome) = 1 →
      ∃ c ∈ l, (c.2.camera && c.2.projection.isSome) = true ∧
        ccFold w dt cc l = (cameraStep w dt cc c.2.transform).1 := by
  intro l
  induction l with
  | nil => intro cc h; simp [List.countP_nil] at h
  | cons p l ih =>
      intro cc h
      by_cases hq : (p.2.camera && p.2.projection.isSome) = true
      · have hrest : l.countP (fun p => p.2.camera && p.2.projection.isSome) = 0 := by
          rw [List.countP_cons] at h
          simp only [hq, if_true] at h
          omega
        have hall : ∀ q ∈ l, (q.2.camera && q.2.projection.isSome) = false := by
          intro q hql
          by_contra hc
          have : (q.2.camera && q.2.projection.isSome) = true := by
            cases hb : (q.2.camera && q.2.projection.isSome)
            · exact absurd hb hc
            · rfl
          have := List.countP_pos_iff (p := fun p => p.2.camera && p.2.projection.isSome)
            (l := l) |>.2 ⟨q, hql, this⟩
          omega
        refine ⟨p, List.mem_cons_self p l, hq, ?_⟩
        simp only [ccFold, hq, if_true]
        exact ccFold_no_camera w dt l _ hall
      · have hrest : l.countP (fun p => p.2.camera && p.2.projection.isSome) = 1 := by
          rw [List.countP_cons] at h
          simp only [hq] at h
          simpa using h
        obtain ⟨c, hcl, hcq, hcf⟩ := ih cc hrest
        refine ⟨c, List.mem_cons_of_mem p hcl, hcq, ?_⟩
        simp only [ccFold, hq, if_false]
        exact hcf

theorem cameraStep_follow_alive (w : World) (dt : ℚ) (cc : CameraController)
    (camTf : Tf) (fid : Nat) (tf : Tf) (hfol : cc.following_entity = some fid)
    (hlook : lookupPlayerTf w fid = some tf) :
    (cameraStep w dt cc camTf).1.following_entity = some fid ∧
    (cameraStep w dt cc camTf).1.target_position = tf.truncate := by
  unfold cameraStep
  rw [hfol]
  by_cases hi : cc.instant_movement = true <;> simp [hi, hlook]

theorem cameraStep_follow_dead (w : World) (dt : ℚ) (cc : CameraController)
    (camTf : Tf) (fid : Nat) (hfol : cc.following_entity = some fid)
    (hlook : lookupPlayerTf w fid = none) :
    (cameraStep w dt cc camTf).1.following_entity = none := by
  unfold cameraStep
  rw [hfol]
  by_cases hi : cc.instant_movement = true <;> simp [hi, hlook]

/-- C8 amended: on a camera tick (with the scene's one camera entity),
a followed entity overwrites the camera target only when the follow
lookup succeeds, and that lookup requires a live entity carrying the
Player role: a live Enemy or Projectile fails the With Player query
exactly as a despawned entity does, and the follow target is cleared
without error. -/
theorem camera_follow_amended (w : World) (cc : CameraController) (dt : ℚ)
    (fid : Nat)
    (hone : w.ents.countP (fun p => p.2.camera && p.2.projection.isSome) = 1)
    (hfol : cc.following_entity = some fid) :
    (∀ tf, lookupPlayerTf w fid = some tf →
      (camera_movement w cc dt).2.following_entity = some fid ∧
      (camera_movement w cc dt).2.target_position = tf.truncate) ∧
    (lookupPlayerTf w fid = none →
      (camera_movement w cc dt).2.following_entity = none) := by
  obtain ⟨c, _, _, hcf⟩ := ccFold_single_camera w dt w.ents cc hone
  rw [camera_movement_cc, hcf]
  constructor
  · intro tf hlook
    exact cameraStep_follow_alive w dt cc c.2.transform fid tf hfol hlook
  · intro hlook
    exact cameraStep_follow_dead w dt cc c.2.transform fid hfol hlook

/-- A camera entity: Camera marker plus OrthographicProjection. -/
def camEnt : Ent :=
  { baseEnt ⟨⟨0, 0, 999⟩, 0, ⟨1, 1, 1⟩⟩ ⟨0, 0, 0, 1⟩ with
    camera := true, projection := some 1 }

/-- C8 counterexample world: the camera plus a live Enemy with id 1. -/
def camCexWorld : World :=
  ⟨2, [(0, camEnt),
       (1, { baseEnt ⟨⟨7, 8, 0⟩, 0, ⟨40, 40, 40⟩⟩ colRed with
         enemy := true, health := some (50, 50), collision := some 20 })]⟩

def camCexCc : CameraController :=
  { target_position := ⟨0, 0⟩, following_entity := some 1, zoom := 1
    target_zoom := 1, instant_movement := false }

/-- C8 counterexample: the followed entity (an Enemy) is alive, yet the
camera tick clears the follow target instead of overwriting the target
position from it, because camera_movement's follow query is
With Player. -/
theorem camera_follow_counterexample :
    camCexWorld.isAlive 1 = true ∧
    (camera_movement camCexWorld camCexCc 1).2.following_entity = none ∧
    (camera_movement camCexWorld camCexCc 1).2.target_position = ⟨0, 0⟩ := by
  refine ⟨rfl, ?_, ?_⟩ <;> rfl

/-- C8 witness world: the camera plus a live Player with id 1. -/
def camWitWorld : World :=
  ⟨2, [(0, camEnt),
       (1, { baseEnt ⟨⟨3, 4, 0⟩, 0, ⟨50, 50, 50⟩⟩ colBlue with
         player := true, shooting := some 0, health := some (100, 100)
         collision := some 25 })]⟩

/-- C8 witness: with a live followed Player, the tick keeps the follow
target and overwrites the camera target from its position. -/
theorem camera_follow_amended_witness :
    (camera_movement camWitWorld camCexCc 1).2.following_entity = some 1 ∧
    (camera_movement camWitWorld camCexCc 1).2.target_position = ⟨3, 4⟩ :=
  (camera_follow_amended camWitWorld camCexCc 1 1 rfl rfl).1
    ⟨⟨3, 4, 0⟩, 0, ⟨50, 50, 50⟩⟩ rfl

/-- C4 amended: deleting an entity through the hierarchy panel despawns
it and clears the selection resource when it pointed at it, but the
camera follow target is left untouched (the handler has no access to
it); a dangling follow target is instead cleared lazily by the next
camera_movement tick, whose lookup fails for the despawned entity. -/
theorem delete_cleanup_amended (w : World) (sel : SelectedEntity)
    (cc : CameraController) (id : Nat) :
    (editorDeleteStep w sel cc id).1.isAlive id = false ∧
    (sel.entity = some id → (editorDeleteStep w sel cc id).2.1.entity = none) ∧
    (sel.entity ≠ some id → (editorDeleteStep w sel cc id).2.1 = sel) ∧
    (editorDeleteStep w sel cc id).2.2 = cc ∧
    (∀ dt : ℚ, cc.following_entity = some id →
      (editorDeleteStep w sel cc id).1.ents.countP
        (fun p => p.2.camera && p.2.projection.isSome) = 1 →
      (camera_movement (editorDeleteStep w sel cc id).1 cc dt).2.following_entity
        = none) := by
  have halive : (editorDeleteStep w sel cc id).1.isAlive id = false := by
    simp only [editorDeleteStep, hierarchy_delete, WorldOf.despawn, WorldOf.isAlive]
    rw [List.any_eq_false]
    intro p hp
    rw [List.mem_filter] at hp
    simpa using hp.2
  refine ⟨halive, ?_, ?_, rfl, ?_⟩
  · intro h
    simp [editorDeleteStep, hierarchy_delete, h]
  · intro h
    simp [editorDeleteStep, hierarchy_delete, h]
  · intro dt hfol hone
    exact (camera_follow_amended _ cc dt id hone hfol).2
      (lookupPlayerTf_of_dead _ id halive)

/-- C4 counterexample world: a scene entity with id 0 plus the camera. -/
def delCexWorld : World :=
  ⟨2, [(0, { baseEnt ⟨⟨7, 8, 0⟩, 0, ⟨40, 40, 40⟩⟩ colRed with
         enemy := true, health := some (50, 50), collision := some 20 }),
       (1, camEnt)]⟩

def delCexCc : CameraController :=
  { target_position := ⟨0, 0⟩, following_entity := some 0, zoom := 1
    target_zoom := 1, instant_movement := false }

/-- C4 counterexample: deleting the entity that is both selected and the
camera follow target clears the selection but leaves the follow target
pointing at the despawned entity — the two cleanups do not happen
together, falsifying the claim that both are performed atomically with
the despawn. -/
theorem delete_follow_counterexample :
    (editorDeleteStep delCexWorld ⟨some 0⟩ delCexCc 0).2.1.entity = none ∧
    (editorDeleteStep delCexWorld ⟨some 0⟩ delCexCc 0).1.isAlive 0 = false ∧
    (editorDeleteStep delCexWorld ⟨some 0⟩ delCexCc 0).2.2.following_entity
      = some 0 := by
  refine ⟨rfl, rfl, rfl⟩

/-- C4 witness: the amended behavior at the counterexample input,
including the lazy follow-target cleanup on the next camera tick. -/
theorem delete_cleanup_amended_witness :
    (editorDeleteStep delCexWorld ⟨some 0⟩ delCexCc 0).1.isAlive 0 = false ∧
    (editorDeleteStep delCexWorld ⟨some 0⟩ delCexCc 0).2.1.entity = none ∧
    (editorDeleteStep delCexWorld ⟨some 0⟩ delCexCc 0).2.2 = delCexCc ∧
    (camera_movement (editorDeleteStep delCexWorld ⟨some 0⟩ delCexCc 0).1
      delCexCc 1).2.following_entity = none :=
  ⟨(delete_cleanup_amended delCexWorld ⟨some 0⟩ delCexCc 0).1,
   (delete_cleanup_amended delCexWorld ⟨some 0⟩ delCexCc 0).2.1 rfl,
   (delete_cleanup_amended delCexWorld ⟨some 0⟩ delCexCc 0).2.2.2.1,
   (delete_cleanup_amended delCexWorld ⟨some 0⟩ delCexCc 0).2.2.2.2 1 rfl rfl⟩

/-! ## C6: exclusivity of the Selected marker -/

/-- The correspondence mouse_interaction maintains: every entity carrying
the Selected marker is the one the SelectedEntity resource points at. -/
def selInv (w : World) (sel : SelectedEntity) : Prop :=
  ∀ p ∈ w.ents, p.2.selected = true → sel.entity = some p.1

theorem allEq_nodup_length_le_one (m : List Nat) (i : Nat)
    (hall : ∀ x ∈ m, x = i) (hnd : m.Nodup) : m.length ≤ 1 := by
  cases m with
  | nil => simp
  | cons x xs =>
      cases xs with
      | nil => simp
      | cons y ys =>
          exfalso
          have hx : x = i := hall x (by simp)
          have hy : y = i := hall y (by simp)
          have hne : x ≠ y := by
            have h1 := List.nodup_cons.1 hnd
            intro he
            exact h1.1 (he ▸ List.mem_cons_self y ys)
          exact hne (by rw [hx, hy])

theorem countP_selected_le_one (l : List (Nat × Ent)) (sel : SelectedEntity)
    (hids : (l.map Prod.fst).Nodup)
    (hinv : ∀ p ∈ l, p.2.selected = true → sel.entity = some p.1) :
    l.countP (fun p => p.2.selected) ≤ 1 := by
  cases hse : sel.entity with
  | none =>
      have h0 : l.countP (fun p => p.2.selected) = 0 := by
        rw [List.countP_eq_zero]
        intro p hp hps
        exact absurd (hinv p hp (by simpa using hps)) (by simp [hse])
      omega
  | some i =>
      rw [List.countP_eq_length_filter]
      have hall : ∀ x ∈ (l.filter (fun p => p.2.selected)).map Prod.fst, x = i := by
        intro x hx
        obtain ⟨p, hp, hpx⟩ := List.mem_map.1 hx
        rw [List.mem_filter] at hp
        have h1 := hinv p hp.1 (by simpa using hp.2)
        rw [hse] at h1
        rw [← hpx]
        exact (Option.some.inj h1).symm
      have hnd : ((l.filter (fun p => p.2.selected)).map Prod.fst).Nodup :=
        ((List.filter_sublist l).map Prod.fst).nodup hids
      have hlen := allEq_nodup_length_le_one _ i hall hnd
      simpa using hlen

theorem remove_selInv (w : World) (sel : SelectedEntity) (hinv : selInv w sel) :
    selInv (removeSelMarker w sel.entity) ⟨none⟩ := by
  intro p' hp' hsel'
  exfalso
  cases hse : sel.entity with
  | none =>
      rw [hse] at hp'
      exact absurd (hinv p' hp' hsel') (by simp [hse])
  | some s =>
      rw [hse] at hp'
      simp only [removeSelMarker] at hp'
      obtain ⟨p, hp, hgp⟩ := List.mem_map.1 hp'
      by_cases hps : p.1 = s
      · rw [← hgp] at hsel'
        simp [hps] at hsel'
      · rw [← hgp] at hsel'
        simp only [hps, if_false] at hsel'
        have h1 := hinv p hp hsel'
        rw [hse] at h1
        exact hps (Option.some.inj h1).symm

theorem marker_selInv (w : World) (sel : SelectedEntity) (hinv : selInv w sel)
    (hit : Nat) :
    selInv (insertSelMarker (removeSelMarker w sel.entity) hit) ⟨some hit⟩ := by
  intro p' hp' hsel'
  simp only [insertSelMarker] at hp'
  obtain ⟨q, hq, hgq⟩ := List.mem_map.1 hp'
  by_cases hqh : q.1 = hit
  · rw [← hgq]
    simp [hqh]
  · rw [← hgq] at hsel'
    simp only [hqh, if_false] at hsel'
    exact absurd (remove_selInv w sel hinv q hq hsel') (by simp)

theorem marker_ids_remove (w : World) (o : Option Nat) :
    (removeSelMarker w o).ents.map Prod.fst = w.ents.map Prod.fst := by
  cases o with
  | none => rfl
  | some i =>
      simp only [removeSelMarker, List.map_map]
      refine List.map_congr_left (fun p _ => ?_)
      by_cases h : p.1 = i <;> simp [h]

theorem marker_ids_insert (w : World) (i : Nat) :
    (insertSelMarker w i).ents.map Prod.fst = w.ents.map Prod.fst := by
  simp only [insertSelMarker, List.map_map]
  refine List.map_congr_left (fun p _ => ?_)
  by_cases h : p.1 = i <;> simp [h]

/-- C6 amended: mouse_interaction — the only operation that inserts the
Selected marker — preserves exclusivity: whenever the world's ids are
distinct and every marked entity is the one the selection resource
points at, after any pointer event every marked entity is again the
(single) resource target and at most one entity carries the marker.
The hierarchy-panel click, however, assigns only the resource and leaves
the old marker in place, so the at-most-one-marker invariant is not
preserved by every selection operation (see the counterexample). -/
theorem selection_exclusive_amended (w : World) (sel : SelectedEntity)
    (drag : DragState) (pressed released : Bool) (mouse : V2)
    (hids : (w.ents.map Prod.fst).Nodup) (hinv : selInv w sel) :
    selInv (mouse_interaction w sel drag pressed released mouse).1
      (mouse_interaction w sel drag pressed released mouse).2.1 ∧
    (mouse_interaction w sel drag pressed released mouse).1.ents.countP
      (fun p => p.2.selected) ≤ 1 := by
  by_cases hpr : pressed = true
  · cases hhit : closestHitEnt w.ents mouse with
    | some hit =>
        have hw : (mouse_interaction w sel drag pressed released mouse).1 =
            insertSelMarker (removeSelMarker w sel.entity) hit.1 := by
          by_cases hrel : released = true <;>
            simp [mouse_interaction, hpr, hhit, hrel]
        have hs : (mouse_interaction w sel drag pressed released mouse).2.1 =
            ⟨some hit.1⟩ := by
          by_cases hrel : released = true <;>
            simp [mouse_interaction, hpr, hhit, hrel]
        rw [hw, hs]
        have hinv' := marker_selInv w sel hinv hit.1
        refine ⟨hinv', countP_selected_le_one _ _ ?_ hinv'⟩
        rw [marker_ids_insert, marker_ids_remove]
        exact hids
    | none =>
        have hw : (mouse_interaction w sel drag pressed released mouse).1 =
            removeSelMarker w sel.entity := by
          by_cases hrel : released = true <;>
            simp [mouse_interaction, hpr, hhit, hrel]
        have hs : (mouse_interaction w sel drag pressed released mouse).2.1 =
            ⟨none⟩ := by
          by_cases hrel : released = true <;>
            simp [mouse_interaction, hpr, hhit, hrel]
        rw [hw, hs]
        have hinv' := remove_selInv w sel hinv
        refine ⟨hinv', countP_selected_le_one _ _ ?_ hinv'⟩
        rw [marker_ids_remove]
        exact hids
  · have hw : (mouse_interaction w sel drag pressed released mouse).1 = w := by
      by_cases hrel : released = true <;> simp [mouse_interaction, hpr, hrel]
    have hs : (mouse_interaction w sel drag pressed released mouse).2.1 = sel := by
      by_cases hrel : released = true <;> simp [mouse_interaction, hpr, hrel]
    rw [hw, hs]
    exact ⟨hinv, countP_selected_le_one _ _ hids hinv⟩

/-- A small enemy entity for the selection scenario. -/
def selEnt (x : ℚ) : Ent :=
  { baseEnt ⟨⟨x, 0, 0⟩, 0, ⟨10, 10, 1⟩⟩ colRed with
    enemy := true, health := some (50, 50), collision := some 20 }

/-- C6 counterexample start: three enemies at x = 0, 100, 200. -/
def selCexWorld : World :=
  ⟨3, [(0, selEnt 0), (1, selEnt 100), (2, selEnt 200)]⟩

/-- C6 witness: a mouse click on the first entity of the fresh scene
establishes the invariant and keeps at most one marker. -/
theorem selection_exclusive_amended_witness :
    selInv (mouse_interaction selCexWorld ⟨none⟩ ⟨false, ⟨0, 0⟩⟩ true false ⟨0, 0⟩).1
      (mouse_interaction selCexWorld ⟨none⟩ ⟨false, ⟨0, 0⟩⟩ true false ⟨0, 0⟩).2.1 ∧
    (mouse_interaction selCexWorld ⟨none⟩ ⟨false, ⟨0, 0⟩⟩ true false
      ⟨0, 0⟩).1.ents.countP (fun p => p.2.selected) ≤ 1 :=
  selection_exclusive_amended selCexWorld ⟨none⟩ ⟨false, ⟨0, 0⟩⟩ true false ⟨0, 0⟩
    (by decide) (by unfold selInv; decide)

/-- C6 counterexample: click entity 0 (marker on 0), click entity 1 in
the hierarchy panel (resource now 1, marker still on 0), then click
entity 2 with the mouse: the old marker removal targets entity 1, so
entities 0 and 2 both end up carrying Selected — two entities selected
at once, falsifying the at-all-times exclusivity claim over the cited
selection operations. -/
theorem selection_exclusive_counterexample :
    (mouse_interaction
        (mouse_interaction selCexWorld ⟨none⟩ ⟨false, ⟨0, 0⟩⟩ true false ⟨0, 0⟩).1
        (hierarchy_select
          (mouse_interaction selCexWorld ⟨none⟩ ⟨false, ⟨0, 0⟩⟩ true false ⟨0, 0⟩).2.1 1)
        (mouse_interaction selCexWorld ⟨none⟩ ⟨false, ⟨0, 0⟩⟩ true false ⟨0, 0⟩).2.2
        true false ⟨200, 0⟩).1.ents.countP (fun p => p.2.selected) = 2 := by
  norm_num [mouse_interaction, closestHitEnt, hierarchy_select, selCexWorld,
    selEnt, baseEnt, dist2, maxQ, insertSelMarker, removeSelMarker,
    Tf.truncate, V2.sub, excludedEnt, List.countP_cons]

/-! ## C7: the pointer-down protocol -/

/-- Modelled from the spec (claim C7), for comparison with the code's
closestHitEnt: hit-test each entity's collision shape (point-in-circle
with the entity's Collision radius) against the pointer, taking the
first hit in iteration order. -/
def specPointerHit (ents : List (Nat × Ent)) (mouse : V2) : Option Nat :=
  (ents.find? (fun p =>
    !excludedEnt p.2 &&
    match p.2.collision with
    | some r => distLt2 p.2.transform.truncate mouse r
    | none => false)).map Prod.fst

/-- What a pointer-down does to one entity's marker: the Selected marker
ends up set exactly on the hit entity, is removed from the previously
selected one, and is untouched elsewhere; no other field changes. -/
def markerUpd (sel : SelectedEntity) (hit : Option Nat) (a b : Nat × Ent) : Prop :=
  b.1 = a.1 ∧
  (b.2.selected = true ↔
    (hit = some a.1 ∨ (a.2.selected = true ∧ sel.entity ≠ some a.1))) ∧
  b.2.transform = a.2.transform ∧
  b.2.spriteColor = a.2.spriteColor ∧
  b.2.player = a.2.player ∧
  b.2.enemy = a.2.enemy ∧
  b.2.projectile = a.2.projectile ∧
  b.2.shooting = a.2.shooting ∧
  b.2.health = a.2.health ∧
  b.2.collision = a.2.collision ∧
  b.2.spriteAsset = a.2.spriteAsset ∧
  b.2.camera = a.2.camera ∧
  b.2.gridLine = a.2.gridLine ∧
  b.2.backgroundImage = a.2.backgroundImage ∧
  b.2.projection = a.2.projection

theorem marker_forall_hit (w : World) (sel : SelectedEntity) (i : Nat) :
    List.Forall₂ (markerUpd sel (some i)) w.ents
      (insertSelMarker (removeSelMarker w sel.entity) i).ents := by
  cases hse : sel.entity with
  | none =>
      simp only [insertSelMarker, removeSelMarker]
      rw [List.forall₂_map_right_iff]
      refine List.forall₂_same.2 (fun p hp => ?_)
      by_cases hpi : p.1 = i
      · simp [markerUpd, hpi, hse]
      · have hpi2 : ¬ i = p.1 := fun h => hpi h.symm
        simp [markerUpd, hpi, hpi2, hse]
  | some s =>
      simp only [insertSelMarker, removeSelMarker, List.map_map]
      rw [List.forall₂_map_right_iff]
      refine List.forall₂_same.2 (fun p hp => ?_)
      by_cases hpi : p.1 = i
      · by_cases hps : p.1 = s
        · have his : i = s := by rw [← hpi, hps]
          simp [markerUpd, Function.comp, hpi, hps, his, hse]
        · have his : ¬ i = s := fun h => hps (by rw [hpi, h])
          simp [markerUpd, Function.comp, hpi, hps, his, hse]
      · have hpi2 : ¬ i = p.1 := fun h => hpi h.symm
        by_cases hps : p.1 = s
        · have hsi : ¬ s = i := fun h => hpi (by rw [hps, h])
          have his : ¬ i = s := fun h => hsi h.symm
          simp [markerUpd, Function.comp, hpi, hpi2, hps, hsi, his, hse]
        · have hsp : ¬ s = p.1 := fun h => hps h.symm
          simp [markerUpd, Function.comp, hpi, hpi2, hps, hsp, hse]

theorem marker_forall_none (w : World) (sel : SelectedEntity) :
    List.Forall₂ (markerUpd sel none) w.ents
      (removeSelMarker w sel.entity).ents := by
  cases hse : sel.entity with
  | none =>
      simp only [removeSelMarker]
      refine List.forall₂_same.2 (fun p hp => ?_)
      simp [markerUpd, hse]
  | some s =>
      simp only [removeSelMarker]
      rw [List.forall₂_map_right_iff]
      refine List.forall₂_same.2 (fun p hp => ?_)
      by_cases hps : p.1 = s
      · simp [markerUpd, hps, hse]
      · have hsp : ¬ s = p.1 := fun h => hps h.symm
        simp [markerUpd, hps, hsp, hse]

/-- C7 amended: on pointer-down the controller hit-tests with a circle
of radius max(scale.x, scale.y) / 2 around each entity — the sprite's
half-size, not the Collision component — and picks the closest hit, not
the first in iteration order.  On a hit it clears the previous marker,
marks and selects the hit entity and begins a drag with
offset = entity position - pointer position; with no hit it clears the
selection and ends any drag, keeping the old offset. -/
theorem pointer_down_amended (w : World) (sel : SelectedEntity)
    (drag : DragState) (mouse : V2) :
    (∀ hit, closestHitEnt w.ents mouse = some hit →
      (mouse_interaction w sel drag true false mouse).2.1.entity = some hit.1 ∧
      (mouse_interaction w sel drag true false mouse).2.2.dragging = true ∧
      (mouse_interaction w sel drag true false mouse).2.2.drag_offset =
        hit.2.transform.truncate.sub mouse ∧
      List.Forall₂ (markerUpd sel (some hit.1)) w.ents
        (mouse_interaction w sel drag true false mouse).1.ents) ∧
    (closestHitEnt w.ents mouse = none →
      (mouse_interaction w sel drag true false mouse).2.1.entity = none ∧
      (mouse_interaction w sel drag true false mouse).2.2.dragging = false ∧
      (mouse_interaction w sel drag true false mouse).2.2.drag_offset =
        drag.drag_offset ∧
      List.Forall₂ (markerUpd sel none) w.ents
        (mouse_interaction w sel drag true false mouse).1.ents) := by
  constructor
  · intro hit hhit
    have hred : mouse_interaction w sel drag true false mouse =
        (insertSelMarker (removeSelMarker w sel.entity) hit.1,
         (⟨some hit.1⟩ : SelectedEntity),
         ({ dragging := true,
            drag_offset := hit.2.transform.truncate.sub mouse } : DragState)) := by
      simp [mouse_interaction, hhit]
    rw [hred]
    exact ⟨rfl, rfl, rfl, marker_forall_hit w sel hit.1⟩
  · intro hhit
    have hred : mouse_interaction w sel drag true false mouse =
        (removeSelMarker w sel.entity, (⟨none⟩ : SelectedEntity),
         { drag with dragging := false }) := by
      simp [mouse_interaction, hhit]
    rw [hred]
    exact ⟨rfl, rfl, rfl, marker_forall_none w sel⟩

/-- C7 counterexample world: one enemy at the origin with a Collision
radius of 100 but sprite scale (10, 10, 1). -/
def hitCexWorld : World :=
  ⟨1, [(0, { baseEnt ⟨⟨0, 0, 0⟩, 0, ⟨10, 10, 1⟩⟩ colRed with
    enemy := true, health := some (50, 50), collision := some 100 })]⟩

/-- C7 counterexample: the pointer at (20, 0) is inside the entity's
collision shape (radius 100), so the claimed hit-test selects entity 0;
the code instead tests against half the maximal scale component (5),
misses, and clears the selection without starting a drag. -/
theorem pointer_hit_counterexample :
    specPointerHit hitCexWorld.ents ⟨20, 0⟩ = some 0 ∧
    (mouse_interaction hitCexWorld ⟨none⟩ ⟨false, ⟨0, 0⟩⟩ true false
      ⟨20, 0⟩).2.1.entity = none ∧
    (mouse_interaction hitCexWorld ⟨none⟩ ⟨false, ⟨0, 0⟩⟩ true false
      ⟨20, 0⟩).2.2.dragging = false := by
  refine ⟨?_, ?_, ?_⟩ <;>
    norm_num [specPointerHit, mouse_interaction, closestHitEnt, hitCexWorld,
      baseEnt, dist2, distLt2, maxQ, Tf.truncate, excludedEnt]

/-- C7 witness: at a concrete scene, the click at the first enemy's
position selects it, starts the drag with zero offset, and moves the
marker per markerUpd. -/
theorem pointer_down_amended_witness :
    (mouse_interaction selCexWorld ⟨none⟩ ⟨false, ⟨0, 0⟩⟩ true false
      ⟨0, 0⟩).2.1.entity = some 0 ∧
    (mouse_interaction selCexWorld ⟨none⟩ ⟨false, ⟨0, 0⟩⟩ true false
      ⟨0, 0⟩).2.2.dragging = true ∧
    (mouse_interaction selCexWorld ⟨none⟩ ⟨false, ⟨0, 0⟩⟩ true false
      ⟨0, 0⟩).2.2.drag_offset = (selEnt 0).transform.truncate.sub ⟨0, 0⟩ ∧
    List.Forall₂ (markerUpd ⟨none⟩ (some 0)) selCexWorld.ents
      (mouse_interaction selCexWorld ⟨none⟩ ⟨false, ⟨0, 0⟩⟩ true false
        ⟨0, 0⟩).1.ents :=
  (pointer_down_amended selCexWorld ⟨none⟩ ⟨false, ⟨0, 0⟩⟩ ⟨0, 0⟩).1
    (0, selEnt 0)
    (by norm_num [closestHitEnt, selCexWorld, selEnt, baseEnt, dist2, maxQ,
      Tf.truncate, excludedEnt])

/-! ## C10: the dragging system writes only x and y -/

/-- What one tick of entity_dragging may do to one entity: the id is
kept; z translation, rotation, scale and every other component are
untouched; an entity that is not the dragged one is fully unchanged; the
dragged one gets exactly x/y = mouse + offset. -/
def dragWrites (drag : DragState) (sel : SelectedEntity) (mouse : V2)
    (a b : Nat × Ent) : Prop :=
  b.1 = a.1 ∧
  b.2.transform.translation.z = a.2.transform.translation.z ∧
  b.2.transform.rotation = a.2.transform.rotation ∧
  b.2.transform.scale = a.2.transform.scale ∧
  b.2.spriteColor = a.2.spriteColor ∧
  b.2.player = a.2.player ∧
  b.2.enemy = a.2.enemy ∧
  b.2.projectile = a.2.projectile ∧
  b.2.shooting = a.2.shooting ∧
  b.2.health = a.2.health ∧
  b.2.collision = a.2.collision ∧
  b.2.spriteAsset = a.2.spriteAsset ∧
  b.2.selected = a.2.selected ∧
  b.2.camera = a.2.camera ∧
  b.2.gridLine = a.2.gridLine ∧
  b.2.backgroundImage = a.2.backgroundImage ∧
  b.2.projection = a.2.projection ∧
  (¬(drag.dragging = true ∧ sel.entity = some a.1) → b.2 = a.2) ∧
  (drag.dragging = true ∧ sel.entity = some a.1 →
    b.2.transform.translation.x = mouse.x + drag.drag_offset.x ∧
    b.2.transform.translation.y = mouse.y + drag.drag_offset.y)

/-- C10: while a drag is active the dragging system writes only the x/y
translation of the dragged entity; its z, rotation, scale and every
other component, and every other entity, are unchanged, as is the id
supply. -/
theorem entity_dragging_only_xy (w : World) (drag : DragState)
    (sel : SelectedEntity) (mouse : V2) :
    (entity_dragging w drag sel mouse).nextEid = w.nextEid ∧
    List.Forall₂ (dragWrites drag sel mouse) w.ents
      (entity_dragging w drag sel mouse).ents := by
  have hrefl : ∀ (l : List (Nat × Ent)),
      List.Forall₂ (fun a b => a = b) l l := by
    intro l; exact List.forall₂_same.2 (fun x _ => rfl)
  by_cases hd : drag.dragging = true
  · cases hsel : sel.entity with
    | none =>
        refine ⟨by simp [entity_dragging, hd, hsel], ?_⟩
        simp only [entity_dragging, hd, hsel, if_true]
        refine List.forall₂_same.2 (fun p _ => ?_)
        refine ⟨rfl, rfl, rfl, rfl, rfl, rfl, rfl, rfl, rfl, rfl, rfl, rfl,
          rfl, rfl, rfl, rfl, rfl, fun _ => rfl, ?_⟩
        rintro ⟨-, hcontra⟩
        simp [hsel] at hcontra
    | some eid =>
        refine ⟨by simp [entity_dragging, hd, hsel], ?_⟩
        simp only [entity_dragging, hd, hsel, if_true]
        rw [List.forall₂_map_right_iff]
        refine List.forall₂_same.2 (fun p _ => ?_)
        by_cases hid : p.1 = eid
        · simp only [hid, if_true]
          refine ⟨hid.symm, rfl, rfl, rfl, rfl, rfl, rfl, rfl, rfl, rfl, rfl, rfl,
            rfl, rfl, rfl, rfl, rfl, ?_, ?_⟩
          · intro hn; exact absurd ⟨hd, by rw [hsel, hid]⟩ hn
          · exact fun _ => ⟨rfl, rfl⟩
        · simp only [hid, if_false]
          refine ⟨rfl, rfl, rfl, rfl, rfl, rfl, rfl, rfl, rfl, rfl, rfl, rfl,
            rfl, rfl, rfl, rfl, rfl, fun _ => rfl, ?_⟩
          rintro ⟨-, hcontra⟩
          rw [hsel] at hcontra
          exact absurd (Option.some.inj hcontra).symm hid
  · have hd0 : drag.dragging = false := by
      cases h : drag.dragging
      · rfl
      · exact absurd h hd
    refine ⟨by simp [entity_dragging, hd0], ?_⟩
    simp only [entity_dragging, hd0, Bool.false_eq_true, if_false]
    refine List.forall₂_same.2 (fun p _ => ?_)
    refine ⟨rfl, rfl, rfl, rfl, rfl, rfl, rfl, rfl, rfl, rfl, rfl, rfl,
      rfl, rfl, rfl, rfl, rfl, fun _ => rfl, ?_⟩
    rintro ⟨hcontra, -⟩
    exact absurd hcontra hd

/-- C3 witness: the gated systems at a concrete closed-gate state and
world leave everything unchanged. -/
theorem gameplay_systems_gated_witness :
    player_movement cleanupCexWorld ⟨true, false, false, false, false, false,
        false, false, true⟩ 1 gsOff = cleanupCexWorld ∧
    player_shooting cleanupCexWorld ⟨true, false, false, false, false, false,
        false, false, true⟩ 1 gsOff ⟨3, 2⟩ = (cleanupCexWorld, ⟨3, 2⟩) ∧
    projectile_movement cleanupCexWorld 1 gsOff = cleanupCexWorld ∧
    update_shooting_cooldowns cleanupCexWorld 1 gsOff = cleanupCexWorld ∧
    collision_detection cleanupCexWorld gsOff ⟨3, 2⟩ = (cleanupCexWorld, ⟨3, 2⟩) ∧
    boundary_collision cleanupCexWorld gsOff = cleanupCexWorld ∧
    enemy_color_change cleanupCexWorld gsOff = cleanupCexWorld :=
  gameplay_systems_gated gsOff cleanupCexWorld
    ⟨true, false, false, false, false, false, false, false, true⟩ 1 ⟨3, 2⟩ rfl

